import Mathlib

/-!
Verification of the tiny-shorturl repository (Next.js / TypeScript).

This file gives a shallow embedding of the core modules:

* `lib/nanoid.ts`   — short-code generation and format validation;
* `lib/validator.ts` — URL validation and normalization;
* `lib/store.ts`    — the local JSON storage adapter and its helpers;
* `app/[code]/page.tsx` — the redirect path;
* `middleware.ts`   — the rate-limit middleware;
* `app/api/shorten/route.ts` — the creation endpoint (POST handler).

External collaborators (the `nanoid` package, the `validator` package, the
WHATWG `URL` class, the upstash rate limiter backend, the file system) are
embedded as explicit parameters or as faithful models of their documented
behaviour; every concrete instantiation of such a parameter used in a
theorem below is documented at its definition with the real behaviour it
mirrors.

JavaScript string primitives are modelled explicitly: `jsTrim` models
`String.prototype.trim` (Unicode whitespace stripped from both ends) and
`utf16Length` models the JavaScript `length` property, which counts UTF-16
code units (2 for characters above U+FFFF).
-/

namespace TinyShortUrl

/-- Whitespace characters recognised by `String.prototype.trim` in
JavaScript: ASCII whitespace, NBSP, the Unicode space separators, line and
paragraph separators, and the byte-order mark. -/
def jsWhitespace : List Char :=
  [' ', '\t', '\n', '\r', '\x0b', '\x0c', '\u00A0', '\u1680', '\u2000',
   '\u2001', '\u2002', '\u2003', '\u2004', '\u2005', '\u2006', '\u2007',
   '\u2008', '\u2009', '\u200A', '\u2028', '\u2029', '\u202F', '\u205F',
   '\u3000', '\uFEFF']

/-- Model of the JavaScript `String.prototype.trim`: drop the whitespace
characters of `jsWhitespace` from both ends of the string. -/
def jsTrim (s : String) : String :=
  String.mk (((s.toList.dropWhile (fun c => jsWhitespace.contains c)).reverse.dropWhile
    (fun c => jsWhitespace.contains c)).reverse)

/-- UTF-16 length of a list of characters: characters above U+FFFF are
encoded as surrogate pairs and count 2. -/
def utf16Len : List Char → Nat
  | [] => 0
  | c :: cs => (if c.toNat < 65536 then 1 else 2) + utf16Len cs

/-- Model of the JavaScript string `length` property (UTF-16 code units). -/
def utf16Length (s : String) : Nat :=
  utf16Len s.toList

/-- Model of `String.prototype.startsWith`, on the character lists. -/
def strStartsWith (s pat : String) : Bool :=
  List.isPrefixOf pat.toList s.toList

/-- Model of `String.prototype.endsWith`, on the character lists. -/
def strEndsWith (s pat : String) : Bool :=
  List.isSuffixOf pat.toList s.toList

/-- Model of `String.prototype.toLowerCase`, mapping ASCII uppercase to
lowercase (the hostnames it is applied to are ASCII). -/
def toLowerString (s : String) : String :=
  String.mk (s.toList.map Char.toLower)

/-- Model of `.slice(0, -1)`: drop the last character. -/
def jsSliceDropLast (s : String) : String :=
  String.mk s.toList.dropLast

/-! ## lib/nanoid.ts — short-code generation -/

/-- Default alphabet of the external `nanoid` package (64 URL-safe symbols,
including the hyphen and the underscore).  The source calls `nanoid(6)`
directly, so this — not the 62-symbol `ALPHABET` below — is the alphabet
codes are actually drawn from. -/
def urlAlphabet : String :=
  "useandom-26T198340PX75pxJACKVERYMINDBUSHWOLF_GQZbfghjklqvwyzrict"

/-- Character set declared in `lib/nanoid.ts` for short codes
(62 characters: digits, uppercase letters, lowercase letters).  In the
source it is used only by `isValidCodeFormat`, never by the generator. -/
def ALPHABET : String :=
  "0123456789ABCDEFGHIJKLMNOPQRSTUVWXYZabcdefghijklmnopqrstuvwxyz"

/-- Default length for short codes, from `lib/nanoid.ts`. -/
def CODE_LENGTH : Nat := 6

/-- Maximum retry attempts for collision resolution, from `lib/nanoid.ts`. -/
def MAX_RETRIES : Nat := 5

/-- Model of the `nanoid` default generator: each output character is the
default-alphabet symbol selected by masking one random byte to 6 bits
(`byte & 63`, here `% 64`).  The randomness is an explicit byte stream
`rand`. -/
def nanoid (rand : Nat → Nat) (size : Nat) : String :=
  String.mk ((List.range size).map (fun i => urlAlphabet.toList.getD (rand i % 64) ' '))

/-- The candidate produced on attempt `i` of the allocation loop, when the
per-attempt randomness is `rand`. -/
def candidateOf (rand : Nat → Nat → Nat) (i : Nat) : String :=
  nanoid (rand i) CODE_LENGTH

/-- Model of `generateCode` from `lib/nanoid.ts`: `nanoid(length)` with no
uniqueness check (default length `CODE_LENGTH`). -/
def generateCode (rand : Nat → Nat) (length : Nat) : String :=
  nanoid rand length

/-- Loop body of `generateUniqueCode`: `attempts` starts at 0 and the
`while (attempts < MAX_RETRIES)` loop is rendered with the explicit fuel
`MAX_RETRIES - attempts`, so `fuel = 0` is exactly the loop exit that
throws.  `ex` is the `urlExists` check against the storage adapter. -/
def genLoop (ex : String → Bool) (rand : Nat → Nat → Nat) :
    Nat → Nat → Except String String
  | _, 0 => Except.error "Failed to generate unique short code after 5 attempts"
  | attempts, fuel + 1 =>
    let code := candidateOf rand attempts
    if ex code then genLoop ex rand (attempts + 1) fuel
    else Except.ok code

/-- Model of `generateUniqueCode` from `lib/nanoid.ts`: up to `MAX_RETRIES`
generate-then-check attempts; the candidate of the first attempt whose
existence check is negative is returned; exhaustion throws.  The function
consults only the existence check `ex`; it has no access to any save
operation. -/
def generateUniqueCode (ex : String → Bool) (rand : Nat → Nat → Nat) :
    Except String String :=
  genLoop ex rand 0 MAX_RETRIES

/-- Model of `isValidCodeFormat` from `lib/nanoid.ts`: length must equal
`CODE_LENGTH` (JavaScript `length`, i.e. UTF-16 units) and every character
must belong to `ALPHABET`. -/
def isValidCodeFormat (code : String) : Bool :=
  if utf16Length code ≠ CODE_LENGTH then false
  else code.toList.all (fun c => ALPHABET.toList.contains c)

/-! ## lib/validator.ts — URL validation -/

/-- Error codes of `lib/validator.ts` (`enum ValidationError`). -/
inductive ValidationError
  | EMPTY_URL
  | TOO_SHORT
  | TOO_LONG
  | INVALID_FORMAT
  | INVALID_PROTOCOL
  | BLOCKED_DOMAIN
deriving DecidableEq

/-- Result record of `validateUrl` (`interface ValidationResult`). -/
structure ValidationResult where
  isValid : Bool
  error : Option ValidationError
  message : Option String
  normalizedUrl : Option String
deriving DecidableEq

/-- Model of a WHATWG `URL` object as far as `validateUrl` reads it:
`protocol` (with its trailing colon, for example `http:`), `hostname`
(already lowercased by the parser), and `href` (the re-serialized
canonical string returned by `toString()`). -/
structure ParsedUrl where
  protocol : String
  hostname : String
  href : String
deriving DecidableEq

/-- `VALIDATION_CONFIG.MIN_LENGTH` from `lib/validator.ts`. -/
def MIN_LENGTH : Nat := 10

/-- `VALIDATION_CONFIG.MAX_LENGTH` from `lib/validator.ts`. -/
def MAX_LENGTH : Nat := 2048

/-- `VALIDATION_CONFIG.ALLOWED_PROTOCOLS` from `lib/validator.ts`. -/
def ALLOWED_PROTOCOLS : List String := ["http", "https"]

/-- `VALIDATION_CONFIG.BLOCKED_DOMAINS` from `lib/validator.ts`. -/
def BLOCKED_DOMAINS : List String := ["localhost", "127.0.0.1", "0.0.0.0"]

/-- Block-list check of `validateUrl`: the source lowercases
`parsedUrl.hostname` and rejects it when it equals a blocked domain or
ends with a dot followed by a blocked domain (a subdomain). -/
def isBlockedHostname (hostname : String) : Bool :=
  BLOCKED_DOMAINS.any (fun domain =>
    toLowerString hostname == domain || strEndsWith (toLowerString hostname) ("." ++ domain))

/-- Model of `validateUrl` from `lib/validator.ts`.  The external
collaborators are parameters: `isURL` is `validator.isURL` with the fixed
option object of the source, and `parse` is the WHATWG `new URL`
constructor, with `none` standing for a thrown `TypeError` (the `catch`
branch).  The local variable `trimmedUrl` of the source is inlined as
`jsTrim url`; rule order is exactly that of the source: empty, minimum
length, maximum length, `validator.isURL`, parse, defensive protocol
re-check, block-list. -/
def validateUrl (isURL : String → Bool) (parse : String → Option ParsedUrl)
    (url : String) : ValidationResult :=
  if jsTrim url = "" then
    ⟨false, some ValidationError.EMPTY_URL, some "URL cannot be empty", none⟩
  else if utf16Length (jsTrim url) < MIN_LENGTH then
    ⟨false, some ValidationError.TOO_SHORT,
      some "URL must be at least 10 characters long", none⟩
  else if utf16Length (jsTrim url) > MAX_LENGTH then
    ⟨false, some ValidationError.TOO_LONG,
      some "URL must be less than 2048 characters long", none⟩
  else if isURL (jsTrim url) = false then
    ⟨false, some ValidationError.INVALID_FORMAT,
      some "Please enter a valid URL starting with http:// or https://", none⟩
  else
    match parse (jsTrim url) with
    | none =>
      ⟨false, some ValidationError.INVALID_FORMAT, some "Invalid URL format", none⟩
    | some parsedUrl =>
      if ALLOWED_PROTOCOLS.contains (jsSliceDropLast parsedUrl.protocol) = false then
        ⟨false, some ValidationError.INVALID_PROTOCOL,
          some "Only HTTP and HTTPS URLs are allowed", none⟩
      else if isBlockedHostname parsedUrl.hostname then
        ⟨false, some ValidationError.BLOCKED_DOMAIN,
          some "This domain is not allowed", none⟩
      else
        ⟨true, none, none, some parsedUrl.href⟩

/-! ## lib/store.ts — storage adapter (local JSON variant) -/

/-- Persisted record (`interface UrlData`). -/
structure UrlData where
  url : String
  createdAt : String
  expiresAt : Option String
deriving DecidableEq

/-- State of the local adapter: the contents of `data/urls.json` seen as
the mapping of codes to records (`Record<string, UrlData>`). -/
abbrev StoreState := String → Option UrlData

/-- Model of `LocalJSONAdapter.save`: read the whole mapping, set the one
key, write the whole mapping back.  At the level of the mapping this is a
single-key update; the operation is total — no existing key is ever
rejected. -/
def LocalJSONAdapter.save (st : StoreState) (code : String) (data : UrlData) :
    StoreState :=
  fun k => if k = code then some data else st k

/-- Model of `LocalJSONAdapter.get`: `allData[code] || null`.  A stored
record is a JavaScript object and objects are always truthy, so this is
exactly the lookup. -/
def LocalJSONAdapter.get (st : StoreState) (code : String) : Option UrlData :=
  st code

/-- Model of `LocalJSONAdapter.exists`: `code in allData`. -/
def LocalJSONAdapter.exists (st : StoreState) (code : String) : Bool :=
  (st code).isSome

/-- Model of the `saveUrl` helper of `lib/store.ts`: build the record with
the current timestamp `now` and store it. -/
def saveUrl (st : StoreState) (now : String) (code : String) (url : String) :
    StoreState :=
  LocalJSONAdapter.save st code ⟨url, now, none⟩

/-- Model of the `getUrl` helper of `lib/store.ts`: `data?.url || null`.
The empty string is the only falsy string value, so a record whose `url`
field is empty falls back to `null` exactly like a missing record. -/
def getUrl (st : StoreState) (code : String) : Option String :=
  match LocalJSONAdapter.get st code with
  | none => none
  | some data => if data.url = "" then none else some data.url

/-- Model of the `urlExists` helper of `lib/store.ts`. -/
def urlExists (st : StoreState) (code : String) : Bool :=
  LocalJSONAdapter.exists st code

/-- A history of `save` calls applied to the empty store, used to speak
about codes on which `save` was never called. -/
def runSaves (ops : List (String × UrlData)) : StoreState :=
  ops.foldl (fun st op => LocalJSONAdapter.save st op.1 op.2) (fun _ => none)

/-! ## app/[code]/page.tsx — the redirect path -/

/-- Outcome the redirect page signals to the framework: the not-found
page, or a redirect carrying its HTTP status together with the target
URL.  The status records whether the signal is temporary (307) or
permanent (308, or the classic 301), which the `next/navigation` helpers
fix. -/
inductive RedirectOutcome
  | notFound
  | redirect (status : Nat) (url : String)
deriving DecidableEq

/-- Model of the `redirect()` helper of `next/navigation` that the page
calls: it throws the framework redirect marker with the **temporary**
HTTP status 307 (outside of server actions).  The permanent variant is a
different helper, `permanentRedirect()`, which signals 308; the page
does not call it, even though the adjacent source comment says
`Perform 301 redirect`. -/
def nextRedirect (url : String) : RedirectOutcome :=
  RedirectOutcome.redirect 307 url

/-- Storage operations the redirect page can issue.  Only a read exists on
this path; the model records the reads actually performed. -/
inductive StorageOp
  | read (code : String)
deriving DecidableEq

/-- Model of `RedirectPage` from `app/[code]/page.tsx`, returning the
outcome together with the list of storage operations performed.  A
malformed code is rejected by `isValidCodeFormat` before any storage call;
`raises` models the storage backend throwing inside the `try` block, whose
`catch` falls through to `notFound` (after re-throwing only the
framework redirect marker); a present URL is handed to the
`next/navigation` `redirect()` helper, modelled by `nextRedirect`. -/
def RedirectPage (st : StoreState) (raises : Bool) (code : String) :
    RedirectOutcome × List StorageOp :=
  if isValidCodeFormat code = false then (RedirectOutcome.notFound, [])
  else if raises then (RedirectOutcome.notFound, [StorageOp.read code])
  else
    match getUrl st code with
    | none => (RedirectOutcome.notFound, [StorageOp.read code])
    | some originalUrl => (nextRedirect originalUrl, [StorageOp.read code])

/-! ## middleware.ts — rate limiting -/

/-- Result object of `ratelimit.limit` from the upstash library. -/
structure RateLimitResult where
  success : Bool
  limit : Nat
  reset : Nat
  remaining : Nat
deriving DecidableEq

/-- Response of the middleware: either pass the request through
(`NextResponse.next()`, with the extra headers set on it) or reject it
with a 429 JSON body. -/
inductive MWResponse
  | next (headers : List (String × String))
  | json429 (code : String) (message : String) (headers : List (String × String))
deriving DecidableEq

/-- The three `X-RateLimit` headers the middleware attaches; `toISO`
models `new Date(reset).toISOString()`. -/
def rateHeaders (toISO : Nat → String) (r : RateLimitResult) :
    List (String × String) :=
  [("X-RateLimit-Limit", toString r.limit),
   ("X-RateLimit-Remaining", toString r.remaining),
   ("X-RateLimit-Reset", toISO r.reset)]

/-- Client identity used by the middleware:
`x-forwarded-for ?? x-real-ip ?? "127.0.0.1"`. -/
def clientIp (xForwardedFor xRealIp : Option String) : String :=
  xForwardedFor.getD (xRealIp.getD "127.0.0.1")

/-- Model of `middleware` from `middleware.ts`.  `limit` is the external
`ratelimit.limit` call, with `Except.error` standing for a thrown backend
error.  The returned Bool records whether the `catch` branch logged a rate
limiting error (`console.error`).  Non-API paths pass through untouched. -/
def middleware (toISO : Nat → String) (limit : String → Except String RateLimitResult)
    (pathname : String) (xForwardedFor xRealIp : Option String) :
    MWResponse × Bool :=
  if strStartsWith pathname "/api/" then
    match limit (clientIp xForwardedFor xRealIp) with
    | Except.ok r =>
      if r.success = false then
        (MWResponse.json429 "RATE_LIMIT_EXCEEDED"
          "Too many requests. Please try again later." (rateHeaders toISO r), false)
      else (MWResponse.next (rateHeaders toISO r), false)
    | Except.error _ => (MWResponse.next [], true)
  else (MWResponse.next [], false)

/-! ## app/api/shorten/route.ts — the creation endpoint -/

/-- Error payload of the endpoint (`{code, message}`). -/
structure ErrorBody where
  code : String
  message : String
deriving DecidableEq

/-- Response of the POST handler: HTTP status plus either the success data
or the error payload. -/
inductive ApiResponse
  | success (status : Nat) (shortUrl : String) (code : String)
  | failure (status : Nat) (error : ErrorBody)
deriving DecidableEq

/-- The `errorCodeMap` of `app/api/shorten/route.ts`, mapping validator
errors to wire error codes.  Note that `TOO_SHORT`, `TOO_LONG` and
`INVALID_FORMAT` are renamed on the wire. -/
def errorCodeMap : ValidationError → String
  | ValidationError.EMPTY_URL => "EMPTY_URL"
  | ValidationError.TOO_SHORT => "URL_TOO_SHORT"
  | ValidationError.TOO_LONG => "URL_TOO_LONG"
  | ValidationError.INVALID_FORMAT => "INVALID_URL_FORMAT"
  | ValidationError.INVALID_PROTOCOL => "INVALID_PROTOCOL"
  | ValidationError.BLOCKED_DOMAIN => "BLOCKED_DOMAIN"

/-- Model of the POST handler of `app/api/shorten/route.ts`.  `body` is
the parsed request body: `none` models a JSON parse failure, `some none`
a missing or non-string `url` field, `some (some u)` the field `u`; the
check `!body.url` also sends the empty string to `MISSING_URL`.  `gen`
is the `generateUniqueCode()` call and `save` the `saveUrl` call, with
`Except.error` standing for a promise rejection. -/
def POST (isURL : String → Bool) (parse : String → Option ParsedUrl)
    (gen : Except String String) (save : String → String → Except String Unit)
    (baseUrl : String) (body : Option (Option String)) : ApiResponse :=
  match body with
  | none => ApiResponse.failure 400 ⟨"INVALID_JSON", "Invalid JSON in request body"⟩
  | some urlField =>
    match urlField with
    | none => ApiResponse.failure 400 ⟨"MISSING_URL", "URL is required"⟩
    | some u =>
      if u = "" then ApiResponse.failure 400 ⟨"MISSING_URL", "URL is required"⟩
      else
        let validation := validateUrl isURL parse u
        if validation.isValid = false then
          ApiResponse.failure 400
            ⟨errorCodeMap (validation.error.getD ValidationError.INVALID_FORMAT),
             validation.message.getD "Invalid URL"⟩
        else
          match gen with
          | Except.error _ =>
            ApiResponse.failure 500
              ⟨"CODE_GENERATION_FAILED", "Unable to generate short code. Please try again."⟩
          | Except.ok shortCode =>
            match save shortCode (validation.normalizedUrl.getD "") with
            | Except.error _ =>
              ApiResponse.failure 500
                ⟨"STORAGE_ERROR", "Failed to save URL. Please try again."⟩
            | Except.ok _ =>
              ApiResponse.success 200 (baseUrl ++ "/" ++ shortCode) shortCode

/-- The error-code taxonomy claimed by the specification for the creation
endpoint. -/
def claimedTaxonomy : List String :=
  ["EMPTY_URL", "TOO_SHORT", "TOO_LONG", "INVALID_FORMAT", "INVALID_PROTOCOL",
   "BLOCKED_DOMAIN", "CODE_GENERATION_FAILED", "STORAGE_ERROR",
   "RATE_LIMIT_EXCEEDED", "INTERNAL_ERROR"]

/-- The error codes (with their HTTP statuses) the POST handler actually
produces, read off the source of `app/api/shorten/route.ts`. -/
def postErrorTaxonomy : List (String × Nat) :=
  [("INVALID_JSON", 400), ("MISSING_URL", 400), ("EMPTY_URL", 400),
   ("URL_TOO_SHORT", 400), ("URL_TOO_LONG", 400), ("INVALID_URL_FORMAT", 400),
   ("INVALID_PROTOCOL", 400), ("BLOCKED_DOMAIN", 400),
   ("CODE_GENERATION_FAILED", 500), ("STORAGE_ERROR", 500)]

/-! ## Concrete instances used by the theorems below -/

/-- The empty store (an absent or empty `data/urls.json`). -/
def emptyStore : StoreState := fun _ => none

/-- A sample record with a non-empty target. -/
def recA : UrlData := ⟨"https://a.example/", "2024-01-01T00:00:00.000Z", none⟩

/-- A second sample record with a non-empty target. -/
def recB : UrlData := ⟨"https://b.example/", "2024-01-02T00:00:00.000Z", none⟩

/-- A record whose `url` field is the empty string. -/
def emptyRec : UrlData := ⟨"", "2024-01-01T00:00:00.000Z", none⟩

/-- A record with a normal target URL. -/
def fullRec : UrlData := ⟨"https://example.com/page", "2024-01-01T00:00:00.000Z", none⟩

/-- A store that maps the well-formed code `abc123` to a record whose
`url` field is empty. -/
def c7state : StoreState := LocalJSONAdapter.save emptyStore "abc123" emptyRec

/-- A store that maps the well-formed code `abc123` to a normal record. -/
def c7state2 : StoreState := LocalJSONAdapter.save emptyStore "abc123" fullRec

/-- A store holding two codes, used to exhibit the frame property of
`save`. -/
def c10pre : StoreState :=
  LocalJSONAdapter.save (LocalJSONAdapter.save emptyStore "aaaaaa" recA) "abc123" recA

/-- Randomness stream for the allocator examples: on attempt `a` every
byte is `a`, so the candidate of attempt `a` is six copies of
`urlAlphabet[a]`: `uuuuuu`, `ssssss`, `eeeeee`, `aaaaaa`, `nnnnnn`. -/
def rand0 : Nat → Nat → Nat := fun a _ => a

/-- Existence check pre-populated so that exactly the first four
candidates of `rand0` collide. -/
def ex0 : String → Bool := fun s =>
  ["uuuuuu", "ssssss", "eeeeee", "aaaaaa"].contains s

/-- Existence check pre-populated so that all five candidates of `rand0`
collide. -/
def exAll0 : String → Bool := fun s =>
  ["uuuuuu", "ssssss", "eeeeee", "aaaaaa", "nnnnnn"].contains s

/-- An `isURL` oracle that accepts nothing — sufficient for inputs that
fail before the format check is reached. -/
def c3isURL : String → Bool := fun _ => false

/-- A parser oracle that parses nothing — sufficient for inputs that fail
before the parse is reached. -/
def c3parse : String → Option ParsedUrl := fun _ => none

/-- A storage save that always succeeds. -/
def c3save : String → String → Except String Unit := fun _ _ => Except.ok ()

/-- A fixed timestamp formatter for the middleware examples. -/
def iso0 : Nat → String := fun _ => "1970-01-01T00:00:00.000Z"

/-- A rate limiter backend whose call always throws. -/
def c8limit : String → Except String RateLimitResult :=
  fun _ => Except.error "connection refused"

/-- Characters of the idempotence counterexample input: the 19 characters
of `http://example.com/` followed by 677 double-quote characters.  Total
length 696, within the [10, 2048] bounds. -/
def bigInList : List Char := "http://example.com/".toList ++ List.replicate 677 '\"'

/-- The idempotence counterexample input URL. -/
def bigIn : String := String.mk bigInList

/-- Characters of the WHATWG serialization of `bigIn`: the double quote
is in the path percent-encode set, so `new URL(bigIn).href` replaces each
of the 677 quotes by `%22`.  Total length 19 + 677 * 3 = 2050 > 2048. -/
def bigOutList : List Char :=
  "http://example.com/".toList ++ (List.replicate 677 ['%', '2', '2']).flatten

/-- The WHATWG serialization (`href`) of `bigIn`. -/
def bigOut : String := String.mk bigOutList

/-- The `URL` record the WHATWG parser produces for `bigIn`: protocol
`http:`, hostname `example.com`, href `bigOut`. -/
def c5record : ParsedUrl := ⟨"http:", "example.com", bigOut⟩

/-- `validator.isURL` restricted to the one input it is consulted on in
the counterexample.  On `bigIn` the real library returns `true`: its
up-front reject matches only whitespace and angle brackets, the length
guard fires only at 2083, the host `example.com` is a valid FQDN, and
characters after the first slash of the path are never inspected. -/
def c5isURL : String → Bool := fun s => s == bigIn

/-- The WHATWG parser restricted to the one input it is consulted on in
the counterexample (see `c5record`). -/
def c5parse : String → Option ParsedUrl :=
  fun s => if s == bigIn then some c5record else none

/-- Witness input for the amended idempotence theorem. -/
def idemUrl : String := "http://example.com"

/-- Its WHATWG serialization (the parser appends the root path slash). -/
def idemHref : String := "http://example.com/"

/-- The `URL` record for `idemUrl`; re-parsing `idemHref` yields the same
record. -/
def c5p : ParsedUrl := ⟨"http:", "example.com", idemHref⟩

/-- `validator.isURL` on the two strings it is consulted on in the
idempotence witness; the real library accepts both. -/
def c5wIsURL : String → Bool := fun s => s == idemUrl || s == idemHref

/-- The WHATWG parser on the two strings it is consulted on in the
idempotence witness; both parse to `c5p`. -/
def c5wParse : String → Option ParsedUrl :=
  fun s => if s == idemUrl || s == idemHref then some c5p else none

/-! ## Helper lemmas -/

/-- Dropping with a predicate that fails on every element is the
identity. -/
theorem dropWhile_eq_self_of_all {p : Char → Bool} :
    ∀ {l : List Char}, (∀ c ∈ l, p c = false) → l.dropWhile p = l
  | [], _ => rfl
  | a :: l, h => by
    rw [List.dropWhile_cons, if_neg]
    simp [h a (by simp)]

/-- A string without any JavaScript whitespace character is unchanged by
`jsTrim`. -/
theorem jsTrim_eq_self {s : String}
    (h : ∀ c ∈ s.toList, jsWhitespace.contains c = false) : jsTrim s = s := by
  unfold jsTrim
  rw [dropWhile_eq_self_of_all h,
    dropWhile_eq_self_of_all (fun c hc => h c (List.mem_reverse.mp hc)),
    List.reverse_reverse]
  rfl

/-- On characters of the basic multilingual plane the UTF-16 length is
the character count. -/
theorem utf16Len_eq_length :
    ∀ {l : List Char}, (∀ c ∈ l, c.toNat < 65536) → utf16Len l = l.length
  | [], _ => rfl
  | a :: l, h => by
    rw [utf16Len, if_pos (h a (by simp)),
      utf16Len_eq_length (fun c hc => h c (by simp [hc])), List.length_cons]
    omega

/-- Characters of the counterexample input: never whitespace, always in
the basic plane. -/
theorem bigIn_chars : ∀ c ∈ bigInList, jsWhitespace.contains c = false ∧ c.toNat < 65536 := by
  intro c hc
  simp only [bigInList, List.mem_append, List.mem_replicate] at hc
  rcases hc with hc | ⟨-, rfl⟩
  · exact (by decide :
      ∀ c ∈ "http://example.com/".toList, jsWhitespace.contains c = false ∧ c.toNat < 65536) c hc
  · decide

/-- Characters of the counterexample serialization: never whitespace,
always in the basic plane. -/
theorem bigOut_chars : ∀ c ∈ bigOutList, jsWhitespace.contains c = false ∧ c.toNat < 65536 := by
  intro c hc
  simp only [bigOutList, List.mem_append, List.mem_flatten, List.mem_replicate] at hc
  rcases hc with hc | ⟨l, ⟨-, rfl⟩, hc⟩
  · exact (by decide :
      ∀ c ∈ "http://example.com/".toList, jsWhitespace.contains c = false ∧ c.toNat < 65536) c hc
  · exact (by decide :
      ∀ c ∈ ['%', '2', '2'], jsWhitespace.contains c = false ∧ c.toNat < 65536) c hc

theorem bigInList_length : bigInList.length = 696 := by
  rw [bigInList, List.length_append, List.length_replicate,
    show "http://example.com/".toList.length = 19 from by decide]

theorem bigOutList_length : bigOutList.length = 2050 := by
  rw [bigOutList, List.length_append, List.length_flatten, List.map_replicate,
    show "http://example.com/".toList.length = 19 from by decide,
    show (['%', '2', '2'] : List Char).length = 3 from rfl,
    List.sum_replicate, smul_eq_mul]

theorem bigIn_trim : jsTrim bigIn = bigIn :=
  jsTrim_eq_self (fun c hc => (bigIn_chars c hc).1)

theorem bigOut_trim : jsTrim bigOut = bigOut :=
  jsTrim_eq_self (fun c hc => (bigOut_chars c hc).1)

theorem bigIn_len : utf16Length bigIn = 696 := by
  have h : utf16Length bigIn = utf16Len bigInList := rfl
  rw [h, utf16Len_eq_length (fun c hc => (bigIn_chars c hc).2), bigInList_length]

theorem bigOut_len : utf16Length bigOut = 2050 := by
  have h : utf16Length bigOut = utf16Len bigOutList := rfl
  rw [h, utf16Len_eq_length (fun c hc => (bigOut_chars c hc).2), bigOutList_length]

theorem bigIn_ne : bigIn ≠ "" := by
  intro h
  have h2 : bigInList.length = 0 := congrArg String.length h
  rw [bigInList_length] at h2
  exact absurd h2 (by decide)

theorem bigOut_ne : bigOut ≠ "" := by
  intro h
  have h2 : bigOutList.length = 0 := congrArg String.length h
  rw [bigOutList_length] at h2
  exact absurd h2 (by decide)

/-- One unrolled step of the allocation loop. -/
theorem genLoop_succ (ex : String → Bool) (rand : Nat → Nat → Nat) (a f : Nat) :
    genLoop ex rand a (f + 1) =
      if ex (candidateOf rand a) then genLoop ex rand (a + 1) f
      else Except.ok (candidateOf rand a) := rfl

/-- The loop consults the existence check only on the candidates of the
attempts it can reach. -/
theorem genLoop_congr (ex ex2 : String → Bool) (rand : Nat → Nat → Nat) :
    ∀ (fuel a : Nat),
      (∀ i, a ≤ i → i < a + fuel →
        ex (candidateOf rand i) = ex2 (candidateOf rand i)) →
      genLoop ex rand a fuel = genLoop ex2 rand a fuel
  | 0, _, _ => rfl
  | fuel + 1, a, h => by
    have hc : ex (candidateOf rand a) = ex2 (candidateOf rand a) :=
      h a le_rfl (by omega)
    rw [genLoop_succ, genLoop_succ, hc]
    cases hb : ex2 (candidateOf rand a)
    · simp [hb]
    · simp only [hb, if_pos]
      exact genLoop_congr ex ex2 rand fuel (a + 1)
        (fun i h1 h2 => h i (by omega) (by omega))

/-- The fully unrolled allocation loop: five candidate checks. -/
theorem generateUniqueCode_unroll (ex : String → Bool) (rand : Nat → Nat → Nat) :
    generateUniqueCode ex rand =
      (if ex (candidateOf rand 0) then
        if ex (candidateOf rand 1) then
          if ex (candidateOf rand 2) then
            if ex (candidateOf rand 3) then
              if ex (candidateOf rand 4) then
                Except.error "Failed to generate unique short code after 5 attempts"
              else Except.ok (candidateOf rand 4)
            else Except.ok (candidateOf rand 3)
          else Except.ok (candidateOf rand 2)
        else Except.ok (candidateOf rand 1)
      else Except.ok (candidateOf rand 0)) := rfl

/-! ## The claims -/

/-- C1.  The claim states that every generated code is 6 characters over
the 62-symbol alphabet.  The length half is true, but the source calls
the external `nanoid` with its default 64-symbol alphabet (the declared
`ALPHABET` is never passed to the generator), so a byte stream of
constant 8 makes `generateCode` and `generateUniqueCode` produce
`------`, a code built from the hyphen — a character outside the
62-symbol alphabet, rejected by `isValidCodeFormat`.  This contradicts
the own comments of the source file (the `ALPHABET` declaration and the
comment `Generate random code using custom alphabet`), so it is a bug in
the code rather than in the claim. -/
theorem c1_default_alphabet_code_bug :
    generateCode (fun _ => 8) CODE_LENGTH = "------" ∧
    isValidCodeFormat "------" = false ∧
    ALPHABET.toList.contains '-' = false ∧
    generateUniqueCode (fun _ => false) (fun _ _ => 8) = Except.ok "------" ∧
    (∀ rand len, (generateCode rand len).length = len) := by
  refine ⟨by decide, by decide, by decide, rfl, ?_⟩
  intro rand len
  simp [generateCode, nanoid]

/-- C2.  The allocator performs at most `MAX_RETRIES = 5`
generate-then-check attempts (its result depends only on the existence
answers for the five reachable candidates), returns the first candidate
whose existence check is negative, and when all five checks are positive
fails with the exhaustion error, which the POST handler of the creation
endpoint reports as `CODE_GENERATION_FAILED` with status 500.  The
embedding of `generateUniqueCode` takes only the existence check as a
capability, mirroring the source, which never calls any save
operation. -/
theorem c2_allocator_bounded_retries (ex ex2 : String → Bool) (rand : Nat → Nat → Nat) :
    ((∀ i, i < MAX_RETRIES → ex (candidateOf rand i) = ex2 (candidateOf rand i)) →
        generateUniqueCode ex rand = generateUniqueCode ex2 rand)
  ∧ (∀ j, j < MAX_RETRIES → ex (candidateOf rand j) = false →
        (∀ i, i < j → ex (candidateOf rand i) = true) →
        generateUniqueCode ex rand = Except.ok (candidateOf rand j))
  ∧ ((∀ i, i < MAX_RETRIES → ex (candidateOf rand i) = true) →
        generateUniqueCode ex rand =
            Except.error "Failed to generate unique short code after 5 attempts"
          ∧ ∀ (isURL : String → Bool) (parse : String → Option ParsedUrl)
              (save : String → String → Except String Unit) (baseUrl u : String),
              u ≠ "" → (validateUrl isURL parse u).isValid = true →
              POST isURL parse (generateUniqueCode ex rand) save baseUrl (some (some u)) =
                ApiResponse.failure 500
                  ⟨"CODE_GENERATION_FAILED", "Unable to generate short code. Please try again."⟩) := by
  refine ⟨?_, ?_, ?_⟩
  · intro h
    exact genLoop_congr ex ex2 rand MAX_RETRIES 0 (fun i _ h2 => h i (by omega))
  · intro j hj hfree hprev
    have hj5 : j < 5 := hj
    rw [generateUniqueCode_unroll]
    interval_cases j
    · simp [hfree]
    · simp [hprev 0 (by omega), hfree]
    · simp [hprev 0 (by omega), hprev 1 (by omega), hfree]
    · simp [hprev 0 (by omega), hprev 1 (by omega), hprev 2 (by omega), hfree]
    · simp [hprev 0 (by omega), hprev 1 (by omega), hprev 2 (by omega),
        hprev 3 (by omega), hfree]
  · intro hall
    have herr : generateUniqueCode ex rand =
        Except.error "Failed to generate unique short code after 5 attempts" := by
      rw [generateUniqueCode_unroll]
      simp [hall 0 (by decide), hall 1 (by decide), hall 2 (by decide),
        hall 3 (by decide), hall 4 (by decide)]
    refine ⟨herr, ?_⟩
    intro isURL parse save baseUrl u hu hval
    simp [POST, hu, hval, herr]

/-- C2 witness: with `rand0` the five candidates are `uuuuuu`, `ssssss`,
`eeeeee`, `aaaaaa`, `nnnnnn`; under `ex0` the first four collide and the
fifth is returned, and under `exAll0` all five collide and the allocator
fails with the exhaustion error. -/
theorem c2_allocator_bounded_retries_witness :
    generateUniqueCode ex0 rand0 = Except.ok "nnnnnn" ∧
    generateUniqueCode exAll0 rand0 =
      Except.error "Failed to generate unique short code after 5 attempts" := by
  constructor
  · have h := (c2_allocator_bounded_retries ex0 ex0 rand0).2.1 4 (by decide)
      (by decide) (by decide)
    rw [h, show candidateOf rand0 4 = "nnnnnn" from by decide]
  · exact ((c2_allocator_bounded_retries exAll0 exAll0 rand0).2.2 (by decide)).1

/-- C6.  Round-trip on the local adapter: after `save code record`,
`get code` returns a record whose `url` equals the saved one; and on any
history of saves that never touches a code, `get` returns `none` and
`exists` returns `false` for it. -/
theorem c6_storage_round_trip :
    (∀ (st : StoreState) (code : String) (record : UrlData),
        (LocalJSONAdapter.get (LocalJSONAdapter.save st code record) code).map UrlData.url
          = some record.url)
  ∧ (∀ (ops : List (String × UrlData)) (code : String),
        code ∉ ops.map Prod.fst →
        LocalJSONAdapter.get (runSaves ops) code = none
          ∧ LocalJSONAdapter.exists (runSaves ops) code = false) := by
  constructor
  · intro st code record
    simp [LocalJSONAdapter.get, LocalJSONAdapter.save]
  · have key : ∀ (ops : List (String × UrlData)) (st : StoreState) (code : String),
        code ∉ ops.map Prod.fst → st code = none →
        (ops.foldl (fun st op => LocalJSONAdapter.save st op.1 op.2) st) code = none := by
      intro ops
      induction ops with
      | nil => intro st code _ hst; simpa using hst
      | cons op rest ih =>
        intro st code h hst
        simp only [List.map_cons, List.mem_cons, not_or] at h
        exact ih _ code h.2 (by simp [LocalJSONAdapter.save, h.1, hst])
    intro ops code h
    have hget : LocalJSONAdapter.get (runSaves ops) code = none :=
      key ops emptyStore code h rfl
    exact ⟨hget, by simp [LocalJSONAdapter.exists, LocalJSONAdapter.get] at hget ⊢; simp [hget]⟩

/-- C6 witness: one save round-trips, and a never-saved code is absent. -/
theorem c6_storage_round_trip_witness :
    (LocalJSONAdapter.get (LocalJSONAdapter.save emptyStore "abc123" recA) "abc123").map
        UrlData.url = some "https://a.example/" ∧
    LocalJSONAdapter.get (runSaves [("abc123", recA)]) "zzzzzz" = none ∧
    LocalJSONAdapter.exists (runSaves [("abc123", recA)]) "zzzzzz" = false := by
  refine ⟨c6_storage_round_trip.1 emptyStore "abc123" recA, ?_, ?_⟩
  · exact (c6_storage_round_trip.2 [("abc123", recA)] "zzzzzz" (by decide)).1
  · exact (c6_storage_round_trip.2 [("abc123", recA)] "zzzzzz" (by decide)).2

/-- C9.  The public lookup `getUrl` uses a falsiness check on the `url`
field, so a stored record whose `url` is the empty string is reported as
absent, indistinguishable from a code that was never saved (a store in
which the code maps to nothing gives the same answer). -/
theorem c9_falsy_url_lookup (st : StoreState) (code : String) (data : UrlData) :
    LocalJSONAdapter.get st code = some data → data.url = "" →
      getUrl st code = none ∧
      getUrl st code = getUrl (fun k => if k = code then none else st k) code := by
  intro h hurl
  have h1 : getUrl st code = none := by
    simp [getUrl, h, hurl]
  have h2 : getUrl (fun k => if k = code then none else st k) code = none := by
    simp [getUrl, LocalJSONAdapter.get]
  exact ⟨h1, h1.trans h2.symm⟩

/-- C9 witness: the store mapping `abc123` to a record with empty `url`
answers `none` on lookup. -/
theorem c9_falsy_url_lookup_witness : getUrl c7state "abc123" = none :=
  (c9_falsy_url_lookup c7state "abc123" emptyRec (by decide) rfl).1

/-- C10.  Frame property of the local save: every other code keeps its
record verbatim, and the saved code maps to the new record even when it
was already present — the adapter is total and never rejects an
overwrite. -/
theorem c10_save_frame (st : StoreState) (code : String) (record : UrlData) :
    (∀ other, other ≠ code →
        LocalJSONAdapter.get (LocalJSONAdapter.save st code record) other
          = LocalJSONAdapter.get st other)
  ∧ LocalJSONAdapter.get (LocalJSONAdapter.save st code record) code = some record := by
  constructor
  · intro other hne
    simp [LocalJSONAdapter.get, LocalJSONAdapter.save, hne]
  · simp [LocalJSONAdapter.get, LocalJSONAdapter.save]

/-- C10 witness: saving over the existing record of `abc123` overwrites
it and leaves the record of `aaaaaa` untouched. -/
theorem c10_save_frame_witness :
    LocalJSONAdapter.get (LocalJSONAdapter.save c10pre "abc123" recB) "aaaaaa" = some recA ∧
    LocalJSONAdapter.get c10pre "abc123" = some recA ∧
    LocalJSONAdapter.get (LocalJSONAdapter.save c10pre "abc123" recB) "abc123" = some recB := by
  refine ⟨?_, by decide, (c10_save_frame c10pre "abc123" recB).2⟩
  rw [(c10_save_frame c10pre "abc123" recB).1 "aaaaaa" (by decide)]
  decide

/-- C7 (amended).  The redirect path signals not-found on a malformed
code without any storage operation, on a storage error, on an absent
code, and also — forced by the falsy lookup of `getUrl` — on a stored
record whose `url` is the empty string; exactly when the record is
present with a non-empty `url` it signals a redirect to the stored URL,
but a **temporary** one (HTTP 307, the `next/navigation` `redirect()`
helper), never the permanent 301/308 signal the claim asserts (the
second-to-last conjunct: every redirect the page can ever signal has
status 307); and the only storage operation it ever performs is the
single read of the requested code (it never writes). -/
theorem c7_redirect_amended (st : StoreState) (raises : Bool) (code : String) :
    (isValidCodeFormat code = false →
        RedirectPage st raises code = (RedirectOutcome.notFound, []))
  ∧ (isValidCodeFormat code = true → raises = true →
        RedirectPage st raises code = (RedirectOutcome.notFound, [StorageOp.read code]))
  ∧ (isValidCodeFormat code = true → raises = false →
        LocalJSONAdapter.get st code = none →
        RedirectPage st raises code = (RedirectOutcome.notFound, [StorageOp.read code]))
  ∧ (∀ data, isValidCodeFormat code = true → raises = false →
        LocalJSONAdapter.get st code = some data → data.url = "" →
        RedirectPage st raises code = (RedirectOutcome.notFound, [StorageOp.read code]))
  ∧ (∀ data, isValidCodeFormat code = true → raises = false →
        LocalJSONAdapter.get st code = some data → data.url ≠ "" →
        RedirectPage st raises code =
          (RedirectOutcome.redirect 307 data.url, [StorageOp.read code]))
  ∧ (∀ s u, (RedirectPage st raises code).1 = RedirectOutcome.redirect s u → s = 307)
  ∧ (∀ op, op ∈ (RedirectPage st raises code).2 → op = StorageOp.read code) := by
  refine ⟨?_, ?_, ?_, ?_, ?_, ?_, ?_⟩
  · intro h
    simp [RedirectPage, h]
  · intro h hr
    simp [RedirectPage, h, hr]
  · intro h hr hget
    simp [RedirectPage, h, hr, getUrl, hget]
  · intro data h hr hget hurl
    simp [RedirectPage, h, hr, getUrl, hget, hurl]
  · intro data h hr hget hurl
    simp [RedirectPage, h, hr, getUrl, hget, hurl, nextRedirect]
  · have hred : (RedirectPage st raises code).1 = RedirectOutcome.notFound
        ∨ ∃ u0, (RedirectPage st raises code).1 = RedirectOutcome.redirect 307 u0 := by
      unfold RedirectPage
      split_ifs
      · exact Or.inl rfl
      · exact Or.inl rfl
      · rcases getUrl st code with _ | u0
        · exact Or.inl rfl
        · exact Or.inr ⟨u0, rfl⟩
    intro s u hs
    rcases hred with h | ⟨u0, h⟩ <;> rw [h] at hs
    · simp at hs
    · injection hs with h1 h2
      exact h1.symm
  · have hops : (RedirectPage st raises code).2 = []
        ∨ (RedirectPage st raises code).2 = [StorageOp.read code] := by
      unfold RedirectPage
      split_ifs
      · exact Or.inl rfl
      · exact Or.inr rfl
      · cases getUrl st code
        · exact Or.inr rfl
        · exact Or.inr rfl
    intro op hop
    rcases hops with h | h <;> rw [h] at hop
    · simp at hop
    · simpa using hop

/-- C7 counterexample to the claim as stated, refuting both of its
divergences concretely.  First, the well-formed code `abc123` is present
in `c7state` (its record has an empty `url`), yet the redirect path
signals not-found, not a redirect to the stored URL of any permanence.
Second, on `c7state2`, whose record holds a normal URL, the page signals
a redirect with the temporary status 307 — `next/navigation`
`redirect()` — and not the permanent 308 (or classic 301) signal the
claim describes. -/
theorem c7_redirect_counterexample :
    LocalJSONAdapter.get c7state "abc123" = some emptyRec ∧
    RedirectPage c7state false "abc123" =
      (RedirectOutcome.notFound, [StorageOp.read "abc123"]) ∧
    (RedirectPage c7state false "abc123").1 ≠ RedirectOutcome.redirect 308 "" ∧
    (RedirectPage c7state false "abc123").1 ≠ RedirectOutcome.redirect 301 "" ∧
    RedirectPage c7state2 false "abc123" =
      (RedirectOutcome.redirect 307 "https://example.com/page",
        [StorageOp.read "abc123"]) ∧
    (RedirectPage c7state2 false "abc123").1 ≠
      RedirectOutcome.redirect 308 "https://example.com/page" ∧
    (RedirectPage c7state2 false "abc123").1 ≠
      RedirectOutcome.redirect 301 "https://example.com/page" := by
  refine ⟨by decide, by decide, by decide, by decide, by decide, by decide, by decide⟩

/-- C7 witness: a present record with a non-empty `url` yields the
temporary (307) redirect to it. -/
theorem c7_redirect_amended_witness :
    RedirectPage c7state2 false "abc123" =
      (RedirectOutcome.redirect 307 "https://example.com/page",
        [StorageOp.read "abc123"]) :=
  (c7_redirect_amended c7state2 false "abc123").2.2.2.2.1 fullRec (by decide) rfl
    (by decide) (by decide)

/-- C8.  The rate limiter fails open: on an API path, when the limiter
backend call throws, the middleware forwards the request with no
alteration (plain `NextResponse.next()`, no 429, no limiter headers) and
records the error; and a 429 rejection, necessarily carrying the code
`RATE_LIMIT_EXCEEDED` and the three `X-RateLimit` headers, arises only
when the backend succeeded and reported the window cap exceeded. -/
theorem c8_rate_limiter_fail_open (toISO : Nat → String)
    (limit : String → Except String RateLimitResult) (pathname : String)
    (xff xri : Option String) :
    (strStartsWith pathname "/api/" = true →
        ∀ e, limit (clientIp xff xri) = Except.error e →
          middleware toISO limit pathname xff xri = (MWResponse.next [], true))
  ∧ (∀ c m hs logged,
        middleware toISO limit pathname xff xri = (MWResponse.json429 c m hs, logged) →
          strStartsWith pathname "/api/" = true ∧ c = "RATE_LIMIT_EXCEEDED" ∧
          logged = false ∧
          ∃ r, limit (clientIp xff xri) = Except.ok r ∧ r.success = false ∧
            hs = rateHeaders toISO r) := by
  constructor
  · intro hp e he
    simp [middleware, hp, he]
  · intro c m hs logged h
    by_cases hp : strStartsWith pathname "/api/" = true
    · rcases hl : limit (clientIp xff xri) with e | r
      · simp [middleware, hp, hl] at h
      · rcases hsb : r.success
        · simp [middleware, hp, hl, hsb] at h
          obtain ⟨⟨hc, hm, hh⟩, hlog⟩ := h
          exact ⟨hp, hc.symm, hlog, r, rfl, hsb, hh.symm⟩
        · simp [middleware, hp, hl, hsb] at h
    · rw [middleware, if_neg hp] at h
      simp at h

/-- C8 witness: a throwing limiter backend on the creation path yields a
plain pass-through response with the error recorded. -/
theorem c8_rate_limiter_fail_open_witness :
    middleware iso0 c8limit "/api/shorten" none none = (MWResponse.next [], true) :=
  (c8_rate_limiter_fail_open iso0 c8limit "/api/shorten" none none).1 (by decide)
    "connection refused" rfl

/-- C4.  Rule order of `validateUrl`: each failure code is returned
exactly when its own rule fails and every earlier rule passed, for any
behaviour of the external format and parse oracles — this is the
first-failing-rule-wins discipline, stated as a full characterization.
The final conjunct shows in addition that a failure before the format
check short-circuits: the result is the same for any format and parse
oracles, so no later rule is evaluated.  `BLOCKED_DOMAIN` arises exactly
when the lowercased hostname equals a block-list entry or is a subdomain
of one (`isBlockedHostname`). -/
theorem c4_validateUrl_rule_order (isURL isURL2 : String → Bool)
    (parse parse2 : String → Option ParsedUrl) (u : String) :
    ((validateUrl isURL parse u).error = some ValidationError.EMPTY_URL ↔ jsTrim u = "")
  ∧ ((validateUrl isURL parse u).error = some ValidationError.TOO_SHORT ↔
        (jsTrim u ≠ "" ∧ utf16Length (jsTrim u) < MIN_LENGTH))
  ∧ ((validateUrl isURL parse u).error = some ValidationError.TOO_LONG ↔
        (jsTrim u ≠ "" ∧ ¬ utf16Length (jsTrim u) < MIN_LENGTH ∧
          utf16Length (jsTrim u) > MAX_LENGTH))
  ∧ ((validateUrl isURL parse u).error = some ValidationError.INVALID_FORMAT ↔
        (jsTrim u ≠ "" ∧ ¬ utf16Length (jsTrim u) < MIN_LENGTH ∧
          ¬ utf16Length (jsTrim u) > MAX_LENGTH ∧
          (isURL (jsTrim u) = false ∨ parse (jsTrim u) = none)))
  ∧ ((validateUrl isURL parse u).error = some ValidationError.INVALID_PROTOCOL ↔
        (jsTrim u ≠ "" ∧ ¬ utf16Length (jsTrim u) < MIN_LENGTH ∧
          ¬ utf16Length (jsTrim u) > MAX_LENGTH ∧ isURL (jsTrim u) = true ∧
          ∃ p, parse (jsTrim u) = some p ∧
            ALLOWED_PROTOCOLS.contains (jsSliceDropLast p.protocol) = false))
  ∧ ((validateUrl isURL parse u).error = some ValidationError.BLOCKED_DOMAIN ↔
        (jsTrim u ≠ "" ∧ ¬ utf16Length (jsTrim u) < MIN_LENGTH ∧
          ¬ utf16Length (jsTrim u) > MAX_LENGTH ∧ isURL (jsTrim u) = true ∧
          ∃ p, parse (jsTrim u) = some p ∧
            ALLOWED_PROTOCOLS.contains (jsSliceDropLast p.protocol) = true ∧
            isBlockedHostname p.hostname = true))
  ∧ (jsTrim u ≠ "" → utf16Length (jsTrim u) < MIN_LENGTH →
        validateUrl isURL parse u = validateUrl isURL2 parse2 u) := by
  by_cases h1 : jsTrim u = ""
  · simp [validateUrl, h1]
  by_cases h2 : utf16Length (jsTrim u) < MIN_LENGTH
  · simp [validateUrl, h1, h2]
  by_cases h3 : utf16Length (jsTrim u) > MAX_LENGTH
  · simp [validateUrl, h1, h2, h3]
  rcases h4 : isURL (jsTrim u)
  · simp [validateUrl, h1, h2, h3, h4]
  rcases hp : parse (jsTrim u) with _ | p
  · simp [validateUrl, h1, h2, h3, h4, hp]
  rcases h5 : ALLOWED_PROTOCOLS.contains (jsSliceDropLast p.protocol)
  · have h5m : jsSliceDropLast p.protocol ∉ ALLOWED_PROTOCOLS := by simpa using h5
    simp [validateUrl, h1, h2, h3, h4, hp, h5, h5m]
  have h5m : jsSliceDropLast p.protocol ∈ ALLOWED_PROTOCOLS := by simpa using h5
  rcases h6 : isBlockedHostname p.hostname
  · simp [validateUrl, h1, h2, h3, h4, hp, h5, h5m, h6]
  · simp [validateUrl, h1, h2, h3, h4, hp, h5, h5m, h6]

/-- C4 witness: on the input `http://a` (8 characters after trimming)
the first failing rule is the minimum length, giving `TOO_SHORT`, and
the oracles are irrelevant. -/
theorem c4_validateUrl_rule_order_witness :
    (validateUrl c3isURL c3parse "http://a").error = some ValidationError.TOO_SHORT :=
  ((c4_validateUrl_rule_order c3isURL c3isURL c3parse c3parse "http://a").2.1).mpr
    ⟨by decide, by decide⟩

/-- C5 (amended).  Normalization idempotence holds only under the extra
bound the counterexample forces: when the normalized string still lies
within the length bounds.  The remaining hypotheses express facts about
the external libraries that hold for every WHATWG serialization: the
serialized string has no surrounding whitespace, `validator.isURL`
accepts it, and re-parsing it yields the same record (in particular it
re-serializes to itself).  Under these, a successful validation of `u`
with normalized form `u2` implies that validating `u2` succeeds and
returns `u2` unchanged. -/
theorem c5_normalization_idempotence_amended (isURL : String → Bool)
    (parse : String → Option ParsedUrl) (u u2 : String) (p : ParsedUrl)
    (hv : validateUrl isURL parse u = ⟨true, none, none, some u2⟩)
    (hp : parse (jsTrim u) = some p)
    (hp2 : parse u2 = some p)
    (htrim : jsTrim u2 = u2)
    (hisurl : isURL u2 = true)
    (hlo : ¬ utf16Length u2 < MIN_LENGTH)
    (hhi : ¬ utf16Length u2 > MAX_LENGTH) :
    validateUrl isURL parse u2 = ⟨true, none, none, some u2⟩ := by
  unfold validateUrl at hv
  rw [hp] at hv
  by_cases h1 : jsTrim u = ""
  · rw [if_pos h1] at hv
    exact absurd hv (by simp)
  rw [if_neg h1] at hv
  by_cases h2 : utf16Length (jsTrim u) < MIN_LENGTH
  · rw [if_pos h2] at hv
    exact absurd hv (by simp)
  rw [if_neg h2] at hv
  by_cases h3 : utf16Length (jsTrim u) > MAX_LENGTH
  · rw [if_pos h3] at hv
    exact absurd hv (by simp)
  rw [if_neg h3] at hv
  by_cases h4 : isURL (jsTrim u) = false
  · rw [if_pos h4] at hv
    exact absurd hv (by simp)
  rw [if_neg h4] at hv
  simp only at hv
  by_cases h5 : ALLOWED_PROTOCOLS.contains (jsSliceDropLast p.protocol) = false
  · rw [if_pos h5] at hv
    exact absurd hv (by simp)
  rw [if_neg h5] at hv
  by_cases h6 : isBlockedHostname p.hostname = true
  · rw [if_pos h6] at hv
    exact absurd hv (by simp)
  rw [if_neg h6] at hv
  have href : p.href = u2 := by
    have := congrArg ValidationResult.normalizedUrl hv
    simpa using this
  have hne2 : ¬ (u2 = "") := by
    intro he
    rw [he] at hlo
    exact hlo (by decide)
  unfold validateUrl
  rw [htrim, hp2, if_neg hne2, if_neg hlo, if_neg hhi,
    if_neg (by simp [hisurl] : ¬ (isURL u2 = false))]
  simp only
  rw [if_neg h5, if_neg h6, href]

/-- C5 witness for the amended theorem: `http://example.com` validates
to the serialization `http://example.com/`, and validating that
serialization succeeds and returns it unchanged. -/
theorem c5_normalization_idempotence_amended_witness :
    validateUrl c5wIsURL c5wParse "http://example.com/" =
      ⟨true, none, none, some "http://example.com/"⟩ :=
  c5_normalization_idempotence_amended c5wIsURL c5wParse "http://example.com"
    "http://example.com/" c5p (by decide) (by decide) (by decide) (by decide)
    (by decide) (by decide) (by decide)

/-- C5 counterexample to the claim as stated.  The input `bigIn` is
`http://example.com/` followed by 677 double quotes: 696 characters,
within bounds, accepted by `validator.isURL` (whose up-front filter
rejects only whitespace and angle brackets and which never inspects
path characters), and parsed by the WHATWG constructor, which
percent-encodes each quote as `%22` in the path, serializing to the
2050-character `bigOut`.  Validation of `bigIn` therefore succeeds with
normalized form `bigOut`, but re-validating `bigOut` fails with
`TOO_LONG` (2050 > 2048): normalization is not idempotent as claimed. -/
theorem c5_normalization_idempotence_counterexample :
    validateUrl c5isURL c5parse bigIn = ⟨true, none, none, some bigOut⟩ ∧
    (validateUrl c5isURL c5parse bigOut).isValid = false ∧
    (validateUrl c5isURL c5parse bigOut).error = some ValidationError.TOO_LONG := by
  have hout : validateUrl c5isURL c5parse bigOut =
      ⟨false, some ValidationError.TOO_LONG,
        some "URL must be less than 2048 characters long", none⟩ := by
    unfold validateUrl
    rw [bigOut_trim, bigOut_len, if_neg bigOut_ne,
      if_neg (by decide : ¬ ((2050 : Nat) < MIN_LENGTH)),
      if_pos (by decide : (2050 : Nat) > MAX_LENGTH)]
  refine ⟨?_, by rw [hout], by rw [hout]⟩
  unfold validateUrl
  rw [bigIn_trim, bigIn_len, if_neg bigIn_ne,
    if_neg (by decide : ¬ ((696 : Nat) < MIN_LENGTH)),
    if_neg (by decide : ¬ ((696 : Nat) > MAX_LENGTH))]
  have hurl : c5isURL bigIn = true := by
    unfold c5isURL
    exact beq_self_eq_true bigIn
  rw [if_neg (by simp [hurl] : ¬ (c5isURL bigIn = false))]
  have hparse : c5parse bigIn = some c5record := by
    unfold c5parse
    rw [beq_self_eq_true bigIn]
    simp
  rw [hparse]
  simp only
  rw [if_neg (by decide :
      ¬ (ALLOWED_PROTOCOLS.contains (jsSliceDropLast c5record.protocol) = false)),
    if_neg (by decide : ¬ (isBlockedHostname c5record.hostname = true))]
  rfl

/-- Every wire code of the validation error map is a 400-class entry of
the actual taxonomy. -/
theorem errorCodeMap_mem (e : ValidationError) :
    (errorCodeMap e, 400) ∈ postErrorTaxonomy := by
  cases e <;> decide

/-- C3 (amended).  Every failure of the POST creation handler carries one
of the codes it actually emits, with its status: `INVALID_JSON`,
`MISSING_URL`, `EMPTY_URL`, `URL_TOO_SHORT`, `URL_TOO_LONG`,
`INVALID_URL_FORMAT`, `INVALID_PROTOCOL`, `BLOCKED_DOMAIN` (400) and
`CODE_GENERATION_FAILED`, `STORAGE_ERROR` (500) — not the claimed
`TOO_SHORT`, `TOO_LONG`, `INVALID_FORMAT`.  In particular a too-short
input yields `URL_TOO_SHORT` and an input rejected by the format check
yields `INVALID_URL_FORMAT`. -/
theorem c3_error_taxonomy_amended (isURL : String → Bool)
    (parse : String → Option ParsedUrl) (gen : Except String String)
    (save : String → String → Except String Unit) (baseUrl : String)
    (body : Option (Option String)) :
    (∀ s e, POST isURL parse gen save baseUrl body = ApiResponse.failure s e →
        (e.code, s) ∈ postErrorTaxonomy)
  ∧ (∀ u, body = some (some u) → u ≠ "" → jsTrim u ≠ "" →
        utf16Length (jsTrim u) < MIN_LENGTH →
        POST isURL parse gen save baseUrl body =
          ApiResponse.failure 400
            ⟨"URL_TOO_SHORT", "URL must be at least 10 characters long"⟩)
  ∧ (∀ u, body = some (some u) → u ≠ "" → jsTrim u ≠ "" →
        ¬ utf16Length (jsTrim u) < MIN_LENGTH → ¬ utf16Length (jsTrim u) > MAX_LENGTH →
        isURL (jsTrim u) = false →
        POST isURL parse gen save baseUrl body =
          ApiResponse.failure 400
            ⟨"INVALID_URL_FORMAT",
              "Please enter a valid URL starting with http:// or https://"⟩) := by
  refine ⟨?_, ?_, ?_⟩
  · intro s e h
    rcases body with _ | uf
    · simp [POST] at h
      rcases h with ⟨rfl, rfl⟩
      decide
    rcases uf with _ | u
    · simp [POST] at h
      rcases h with ⟨rfl, rfl⟩
      decide
    by_cases hu : u = ""
    · simp [POST, hu] at h
      rcases h with ⟨rfl, rfl⟩
      decide
    by_cases hval : (validateUrl isURL parse u).isValid = false
    · simp [POST, hu, hval] at h
      rcases h with ⟨rfl, rfl⟩
      exact errorCodeMap_mem _
    rcases hg : gen with ge | gc
    · simp [POST, hu, hval, hg] at h
      rcases h with ⟨rfl, rfl⟩
      decide
    rcases hsv : save gc ((validateUrl isURL parse u).normalizedUrl.getD "") with se | so
    · simp [POST, hu, hval, hg, hsv] at h
      rcases h with ⟨rfl, rfl⟩
      decide
    · simp [POST, hu, hval, hg, hsv] at h
  · intro u hb hu ht hshort
    subst hb
    have hverr : validateUrl isURL parse u =
        ⟨false, some ValidationError.TOO_SHORT,
          some "URL must be at least 10 characters long", none⟩ := by
      unfold validateUrl
      rw [if_neg ht, if_pos hshort]
    simp [POST, hu, hverr, errorCodeMap]
  · intro u hb hu ht hshort hlong hfmt
    subst hb
    have hverr : validateUrl isURL parse u =
        ⟨false, some ValidationError.INVALID_FORMAT,
          some "Please enter a valid URL starting with http:// or https://", none⟩ := by
      unfold validateUrl
      rw [if_neg ht, if_neg hshort, if_neg hlong, if_pos hfmt]
    simp [POST, hu, hverr, errorCodeMap]

/-- C3 witness for the amended theorem: the 8-character input `http://a`
is rejected with `URL_TOO_SHORT` and status 400. -/
theorem c3_error_taxonomy_amended_witness :
    POST c3isURL c3parse (Except.ok "abc123") c3save "http://sho.rt"
        (some (some "http://a")) =
      ApiResponse.failure 400
        ⟨"URL_TOO_SHORT", "URL must be at least 10 characters long"⟩ :=
  (c3_error_taxonomy_amended c3isURL c3parse (Except.ok "abc123") c3save
      "http://sho.rt" (some (some "http://a"))).2.1 "http://a" rfl (by decide)
    (by decide) (by decide)

/-- C3 counterexample to the claim as stated: the too-short input
`http://a` produces the wire code `URL_TOO_SHORT`, which differs from
the claimed `TOO_SHORT` and lies outside the claimed taxonomy. -/
theorem c3_error_taxonomy_counterexample :
    POST c3isURL c3parse (Except.ok "abc123") c3save "http://sho.rt"
        (some (some "http://a")) =
      ApiResponse.failure 400
        ⟨"URL_TOO_SHORT", "URL must be at least 10 characters long"⟩ ∧
    "URL_TOO_SHORT" ∉ claimedTaxonomy ∧
    "URL_TOO_SHORT" ≠ "TOO_SHORT" := by
  refine ⟨by decide, by decide, by decide⟩

end TinyShortUrl
